import Mathlib

/-!
Verification of the survey platform's response aggregation and eligibility
core against its natural-language specification.

The repository contains two parallel implementations:
* a CSV-backed, DDD-style variant (`src/application`, `src/domain`,
  `src/infrastructure`), embedded below in namespace `Ddd`;
* a SQL-backed variant (`src/app`), embedded below in namespace `App`.

Conventions of the shallow embedding:
* Python strings become `String`, lists become `List`, `None`-able values
  become `Option`; `datetime` values become `Nat` timestamps compared with `<`.
* Python floats are modelled as `ℚ` (all values the claims exercise are exact
  decimals, so no binary-rounding artifact is in scope).
* Python truthiness (`if x:` on optional ints/strings/lists) is modelled
  explicitly by the `pyTruthy*` helpers.
* Fallible code returns `Except`; raising an exception in the source becomes
  returning `.error`.
* Python `dict` assignment and `dict.get(k, 0)` are modelled by `dictSet`,
  `dictIncr` and `dictGet` on insertion-ordered association lists, matching
  the insertion-order semantics of Python 3.7+ dicts.
-/

namespace SaasSurvey

/-- Python truthiness of an optional int (`None` and `0` are falsy). -/
def pyTruthyNat (o : Option Nat) : Bool :=
  match o with
  | none => false
  | some n => n != 0

/-- Python truthiness of an optional string (`None` and `""` are falsy). -/
def pyTruthyStr (o : Option String) : Bool :=
  match o with
  | none => false
  | some s => s != ""

/-- Python `a or b` for an optional string with a string default. -/
def pyOrStr (o : Option String) (dflt : String) : String :=
  match o with
  | none => dflt
  | some s => if s != "" then s else dflt

/-- Python `s.isdigit()` (restricted to ASCII digits, which is all the
repository ever stores for ratings): nonempty and all characters digits. -/
def pyIsDigit (s : String) : Bool :=
  !s.data.isEmpty && s.data.all Char.isDigit

/-- Python `int(s)` on a digit string: the decimal value of its digits. -/
def pyInt (s : String) : Nat :=
  s.data.foldl (fun n c => n * 10 + (c.toNat - 48)) 0

/-- Python `not s.strip()`: true exactly when every character of `s` is
whitespace (so the stripped string is empty). -/
def pyStripIsEmpty (s : String) : Bool :=
  s.data.all Char.isWhitespace

/-- Round a rational to the nearest integer, ties to even — the rounding
Python's built-in `round` uses. -/
def roundHalfEven (q : ℚ) : ℤ :=
  let f := ⌊q⌋
  let frac := q - (f : ℚ)
  if frac < 1 / 2 then f
  else if 1 / 2 < frac then f + 1
  else if f % 2 = 0 then f else f + 1

/-- Python `round(x, 2)` on the rational model of a float. -/
def pyRound2 (q : ℚ) : ℚ :=
  (roundHalfEven (q * 100) : ℚ) / 100

/-- Python dict assignment `d[k] = v` on an insertion-ordered association
list: update in place if the key exists, else append. -/
def dictSet {α : Type} (d : List (String × α)) (k : String) (v : α) :
    List (String × α) :=
  match d with
  | [] => [(k, v)]
  | (k0, v0) :: rest =>
    if k0 = k then (k, v) :: rest else (k0, v0) :: dictSet rest k v

/-- Python `d[k] = d.get(k, 0) + n` on an insertion-ordered association
list of counters. -/
def dictIncr (d : List (String × Nat)) (k : String) (n : Nat) :
    List (String × Nat) :=
  match d with
  | [] => [(k, n)]
  | (k0, v0) :: rest =>
    if k0 = k then (k, v0 + n) :: rest else (k0, v0) :: dictIncr rest k n

/-- Python `d.get(k, 0)`. -/
def dictGet (d : List (String × Nat)) (k : String) : Nat :=
  match d with
  | [] => 0
  | (k0, v0) :: rest => if k0 = k then v0 else dictGet rest k

end SaasSurvey

namespace Ddd

open SaasSurvey

/-- Embeds `domain/value_objects/types.py QuestionType`. -/
inductive QuestionType where
  | text
  | rating
  | multipleChoice
deriving DecidableEq, Repr

/-- Embeds `domain/entities/question.py Question` (the CSV serialization helpers
`to_dict`/`from_dict` are storage plumbing and are not embedded). -/
structure Question where
  id : String
  surveyId : String
  text : String
  questionType : QuestionType
  options : Option (List String) := none
deriving DecidableEq, Repr

/-- Embeds `Question.__post_init__`: the validating construction of a `Question`
dataclass; a raised `ValueError` becomes `.error`, so an `.error` result
means no `Question` value was ever constructed. -/
def Question.make (id surveyId text : String) (questionType : QuestionType)
    (options : Option (List String)) : Except String Question :=
  if id = "" then .error "질문 ID는 필수입니다"
  else if surveyId = "" then .error "설문 ID는 필수입니다"
  else if text = "" ∨ pyStripIsEmpty text then .error "질문 내용은 필수입니다"
  else if questionType = QuestionType.multipleChoice ∧
      (options.getD []).length < 2 then
    .error "객관식 질문은 최소 2개 이상의 선택지가 필요합니다"
  else .ok ⟨id, surveyId, text, questionType, options⟩

/-- Embeds `domain/entities/survey.py Survey` (its `__post_init__` checks on
title/description are not exercised by any claim but kept out of the way by
taking already-constructed values). -/
structure Survey where
  id : String
  title : String
  description : String
  createdAt : Nat
  questions : List Question := []
deriving DecidableEq, Repr

/-- Embeds `domain/entities/response.py Response`: one stored answer row — the DDD
variant stores one `Response` per (question, answer) pair. -/
structure Response where
  id : String
  surveyId : String
  questionId : String
  answer : String
  respondentId : String
  createdAt : Nat
deriving DecidableEq, Repr

/-- The data visible through the two CSV repositories. -/
structure SurveyDb where
  surveys : List Survey
  responses : List Response
deriving DecidableEq, Repr

/-- Embeds `csv_survey_repository.find_survey_by_id` (a pure read of surveys.csv),
with the unchanged store returned to make the read-only access explicit. -/
def findSurveyByIdM (surveyId : String) (db : SurveyDb) :
    Option Survey × SurveyDb :=
  (db.surveys.find? (fun s => s.id = surveyId), db)

/-- Embeds `csv_response_repository.find_by_question_id` (a pure read of
responses.csv), with the unchanged store returned. -/
def findByQuestionIdM (questionId : String) (db : SurveyDb) :
    List Response × SurveyDb :=
  (db.responses.filter (fun r => r.questionId = questionId), db)

/-- Pure view of `find_by_question_id`. -/
def findByQuestionId (store : List Response) (questionId : String) :
    List Response :=
  store.filter (fun r => r.questionId = questionId)

/-- Pure view of `csv_response_repository.find_by_survey_id`. -/
def findBySurveyId (store : List Response) (surveyId : String) :
    List Response :=
  store.filter (fun r => r.surveyId = surveyId)

/-- The per-question result dict built by
`application/response_service.get_survey_results`: each branch of the
`if/elif/else` produces a dict with a distinct key set, captured by one
constructor per branch (so presence or absence of the `average` /
`distribution` / `answers` keys is part of the value). -/
inductive QuestionResult where
  | rating (question : String) (count : Nat) (average : ℚ)
  | choice (question : String) (count : Nat)
      (distribution : List (String × Nat))
  | text (question : String) (count : Nat) (answers : List String)
deriving DecidableEq, Repr

/-- The `count` key, present in every branch. -/
def QuestionResult.count : QuestionResult → Nat
  | .rating _ c _ => c
  | .choice _ c _ => c
  | .text _ c _ => c

/-- The `average` key: `some` exactly when the result dict carries it. -/
def QuestionResult.average : QuestionResult → Option ℚ
  | .rating _ _ a => some a
  | _ => none

/-- The `distribution` key: `some` exactly when the result dict carries
it. -/
def QuestionResult.distribution? : QuestionResult → Option (List (String × Nat))
  | .choice _ _ d => some d
  | _ => none

/-- The `answers` key: `some` exactly when the result dict carries it. -/
def QuestionResult.answers? : QuestionResult → Option (List String)
  | .text _ _ l => some l
  | _ => none

/-- Models `collections.Counter` over a list of strings, as an insertion-ordered
counting dict. -/
def counter (answers : List String) : List (String × Nat) :=
  answers.foldl (fun d a => dictIncr d a 1) []

/-- The rating branch of `get_survey_results`:
`ratings = [int(a) for a in answers if a.isdigit()]`,
`avg = sum/len if ratings else 0.0`, rounded to 2 decimals. -/
def ratingResult (questionText : String) (answers : List String) :
    QuestionResult :=
  let ratings := (answers.filter pyIsDigit).map pyInt
  let avg : ℚ :=
    if ratings.isEmpty then 0
    else ((ratings.sum : ℤ) : ℚ) / (ratings.length : ℚ)
  .rating questionText ratings.length (pyRound2 avg)

/-- The choice branch of `get_survey_results`. -/
def choiceResult (questionText : String) (answers : List String) :
    QuestionResult :=
  .choice questionText answers.length (counter answers)

/-- The else (text) branch of `get_survey_results`. -/
def textResult (questionText : String) (answers : List String) :
    QuestionResult :=
  .text questionText answers.length answers

/-- Dispatch of `get_survey_results` on `question.question_type.value`. -/
def questionResultOf (q : Question) (answers : List String) : QuestionResult :=
  match q.questionType with
  | .rating => ratingResult q.text answers
  | .multipleChoice => choiceResult q.text answers
  | .text => textResult q.text answers

/-- One loop iteration of `get_survey_results`: fetch the question's
responses from the repository, aggregate, and store under `results[q.id]`. -/
def resultsStep (p : List (String × QuestionResult) × SurveyDb)
    (q : Question) : List (String × QuestionResult) × SurveyDb :=
  let fetched := findByQuestionIdM q.id p.2
  (dictSet p.1 q.id (questionResultOf q (fetched.1.map Response.answer)),
    fetched.2)

/-- Embeds `application/response_service.get_survey_results`, with the repository
state threaded through every repository call exactly as the service makes
them, so that absence of mutation is a provable statement rather than an
assumption. -/
def getSurveyResultsM (surveyId : String) (db : SurveyDb) :
    Except String (List (String × QuestionResult)) × SurveyDb :=
  match findSurveyByIdM surveyId db with
  | (none, db1) => (.error ("설문을 찾을 수 없습니다: " ++ surveyId), db1)
  | (some survey, db1) =>
    let p := survey.questions.foldl resultsStep ([], db1)
    (.ok p.1, p.2)

/-- Result component of `get_survey_results`. -/
def getSurveyResults (surveys : List Survey) (store : List Response)
    (surveyId : String) :
    Except String (List (String × QuestionResult)) :=
  (getSurveyResultsM surveyId ⟨surveys, store⟩).1

/-- Per-question aggregation over a response store (the value
`get_survey_results` files under `results[q.id]`). -/
def aggregateQuestion (store : List Response) (q : Question) :
    QuestionResult :=
  questionResultOf q ((findByQuestionId store q.id).map Response.answer)

/-- The save loop of `application/response_service.submit_response`: one
`Response` row per `(question_id, answer)` item of the answers dict, each
with a fresh uuid (modelled by an injective generator `uuids` applied at
successive indices). -/
def saveAnswers (uuids : Nat → String) (k : Nat) (now : Nat)
    (surveyId respondentId : String) :
    List (String × String) → List Response
  | [] => []
  | (questionId, answer) :: rest =>
    ⟨uuids k, surveyId, questionId, answer, respondentId, now⟩ ::
      saveAnswers uuids (k + 1) now surveyId respondentId rest

/-- Embeds `application/response_service.submit_response`: look the survey up,
then append one saved `Response` per answers-dict item to the CSV store. -/
def submitResponse (surveys : List Survey) (store : List Response)
    (uuids : Nat → String) (k : Nat) (now : Nat)
    (surveyId respondentId : String) (answers : List (String × String)) :
    Except String (List Response) :=
  match surveys.find? (fun s => s.id = surveyId) with
  | none => .error ("설문을 찾을 수 없습니다: " ++ surveyId)
  | some _ =>
    .ok (store ++ saveAnswers uuids k now surveyId respondentId answers)

end Ddd

namespace App

open SaasSurvey

/-- Embeds `app/models/form.py QuestionType`. -/
inductive SqlQuestionType where
  | shortText
  | longText
  | multipleChoice
  | checkbox
  | dropdown
  | scale
  | date
  | time
  | fileUpload
  | email
  | number
deriving DecidableEq, Repr

/-- A JSON column value as the statistics and validation code inspects it:
`None`, a scalar string, or a list of strings (the shapes choice answers
take). Python truthiness on it is `JsonValue.truthy`. -/
inductive JsonValue where
  | null
  | str (s : String)
  | arr (l : List String)
deriving DecidableEq, Repr

/-- Python truthiness of a JSON column value. -/
def JsonValue.truthy : JsonValue → Bool
  | .null => false
  | .str s => s != ""
  | .arr l => !l.isEmpty

/-- Embeds `app/models/form.py Question` (columns the embedded logic never reads —
description, settings, validation_rules, timestamps — are omitted). -/
structure SqlQuestion where
  id : Nat
  formId : Nat
  questionType : SqlQuestionType
  title : String
  required : Bool
  order : Int
  options : Option (List String) := none
deriving DecidableEq, Repr

/-- Embeds `app/models/form.py Form` (columns the embedded logic never reads are
omitted). -/
structure Form where
  id : Nat
  ownerId : Nat
  isActive : Bool
  acceptsResponses : Bool
  requiresLogin : Bool
  deadline : Option Nat := none
  maxResponses : Option Nat := none
  limitOneResponse : Bool
  questions : List SqlQuestion := []
deriving DecidableEq, Repr

/-- Embeds `app/models/form.py FormResponse` (audit columns omitted). -/
structure FormResponse where
  id : Nat
  formId : Nat
  respondentId : Option Nat
  respondentEmail : Option String
  submittedAt : Nat
deriving DecidableEq, Repr

/-- Embeds `app/models/form.py Answer` rows as the repository writes them. -/
structure AnswerRow where
  responseId : Nat
  questionId : Nat
  textAnswer : Option String
  numberAnswer : Option Int
  jsonAnswer : JsonValue
  fileUrl : Option String
deriving DecidableEq, Repr

/-- One `answer_data` dict of a submission payload: every field reached by
`dict.get` may be missing. -/
structure AnswerInput where
  questionId : Option Nat := none
  textAnswer : Option String := none
  numberAnswer : Option Int := none
  jsonAnswer : JsonValue := .null
  fileUrl : Option String := none
deriving DecidableEq, Repr

/-- The SQL store as the response service sees it. -/
structure Db where
  responses : List FormResponse := []
  answerRows : List AnswerRow := []
deriving DecidableEq, Repr

/-- The error taxonomy of the submission path, one constructor per distinct
`HTTPException` raise site reachable from `submit_response`. -/
inductive RejectReason where
  | surveyNotFound
  | surveyInactive
  | notAcceptingResponses
  | deadlinePassed
  | responseLimitReached
  | loginRequired
  | duplicateResponse
  | invalidQuestion
  | requiredAnswerMissing
  | typeMismatch
  | notANumber
  | invalidOption
  | checkboxNeedsSelections
deriving DecidableEq, Repr

/-- Embeds `ResponseRepository.count_survey_responses`. -/
def countSurveyResponses (store : List FormResponse) (surveyId : Nat) : Nat :=
  (store.filter (fun r => r.formId = surveyId)).length

/-- Embeds `ResponseRepository.has_user_responded`: filter by `respondent_id` when
the user id is truthy, else by `respondent_email` when the email is truthy,
else `False`. -/
def hasUserResponded (store : List FormResponse) (surveyId : Nat)
    (userId : Option Nat) (email : Option String) : Bool :=
  if pyTruthyNat userId then
    ((store.filter
        (fun r => r.formId = surveyId ∧ r.respondentId = userId)).length) > 0
  else if pyTruthyStr email then
    ((store.filter
        (fun r => r.formId = surveyId ∧ r.respondentEmail = email)).length) > 0
  else false

/-- The `is_active` condition of `_get_and_validate_survey`. -/
def violatesInactive (f : Form) : Bool :=
  !f.isActive

/-- The `accepts_responses` condition of `_get_and_validate_survey`. -/
def violatesNotAccepting (f : Form) : Bool :=
  !f.acceptsResponses

/-- The deadline condition of `_get_and_validate_survey`:
`survey.deadline and utcnow() > survey.deadline`. -/
def violatesDeadline (f : Form) (now : Nat) : Bool :=
  match f.deadline with
  | some d => now > d
  | none => false

/-- The response-cap condition of `_get_and_validate_survey`:
`if survey.max_responses:` (truthy, so `0` disables the cap) and then
`response_count >= survey.max_responses`. -/
def violatesLimit (f : Form) (store : List FormResponse) : Bool :=
  match f.maxResponses with
  | some m => m != 0 && countSurveyResponses store f.id ≥ m
  | none => false

/-- The login condition of `submit_response`:
`survey.requires_login and not respondent_id`. -/
def violatesLogin (f : Form) (respondentId : Option Nat) : Bool :=
  f.requiresLogin && !pyTruthyNat respondentId

/-- The duplicate condition of `submit_response`:
`survey.limit_one_response` and `has_user_responded(...)`. -/
def violatesDuplicate (f : Form) (store : List FormResponse)
    (respondentId : Option Nat) (email : Option String) : Bool :=
  f.limitOneResponse && hasUserResponded store f.id respondentId email

/-- Embeds `ResponseService._get_and_validate_survey`: resolve the survey then run
the four availability checks in source order. -/
def getAndValidateSurvey (forms : List Form) (store : List FormResponse)
    (now : Nat) (surveyId : Nat) : Except RejectReason Form :=
  match forms.find? (fun f => f.id = surveyId) with
  | none => .error .surveyNotFound
  | some survey =>
    if violatesInactive survey then .error .surveyInactive
    else if violatesNotAccepting survey then .error .notAcceptingResponses
    else if violatesDeadline survey now then .error .deadlinePassed
    else if violatesLimit survey store then .error .responseLimitReached
    else .ok survey

/-- Embeds the line `answer_value = text_answer or json_answer`
in `_validate_answer_type`. -/
def answerValue (a : AnswerInput) : JsonValue :=
  if pyTruthyStr a.textAnswer then .str (a.textAnswer.getD "")
  else a.jsonAnswer

/-- Python `answer_value in question.options` for the value shapes above
(a list is never equal to any option string). -/
def JsonValue.memOptions : JsonValue → List String → Bool
  | .str s, opts => s ∈ opts
  | _, _ => false

/-- A conservative model of Python `float(s)` parseability for the plain
decimal literals the submission path can carry: optional sign, then digits
with at most one decimal point, after stripping surrounding spaces.
(Exponents and inf/nan, which no caller produces, are out of scope.) -/
def pyFloatParsable (s : String) : Bool :=
  let t := s.trim
  let t := if t.startsWith "-" ∨ t.startsWith "+" then t.drop 1 else t
  match t.splitOn "." with
  | [w] => pyIsDigit w
  | [w, f] =>
    (pyIsDigit w && (f.isEmpty || pyIsDigit f)) ||
      (w.isEmpty && pyIsDigit f)
  | _ => false

/-- Embeds `ResponseService._validate_answer_type`. -/
def validateAnswerType (q : SqlQuestion) (a : AnswerInput) :
    Except RejectReason Unit :=
  match q.questionType with
  | .shortText | .longText | .email =>
    if a.numberAnswer.isSome || a.jsonAnswer.truthy then .error .typeMismatch
    else .ok ()
  | .number =>
    if a.numberAnswer.isNone && pyTruthyStr a.textAnswer then
      if pyFloatParsable (a.textAnswer.getD "") then .ok ()
      else .error .notANumber
    else .ok ()
  | .multipleChoice | .dropdown =>
    match q.options with
    | some opts =>
      if !opts.isEmpty then
        if (answerValue a).truthy && !(answerValue a).memOptions opts then
          .error .invalidOption
        else .ok ()
      else .ok ()
    | none => .ok ()
  | .checkbox =>
    if !a.jsonAnswer.truthy && pyTruthyStr a.textAnswer then
      .error .checkboxNeedsSelections
    else .ok ()
  | _ => .ok ()

/-- The `has_answer` disjunction of `_validate_answers` for a required
question. -/
def hasPopulatedAnswer (a : AnswerInput) : Bool :=
  pyTruthyStr a.textAnswer || a.numberAnswer.isSome ||
    a.jsonAnswer.truthy || pyTruthyStr a.fileUrl

/-- Embeds `ResponseService._validate_answers`: first failing answer raises
(question ids are primary keys, so `find?` over the list agrees with the
`{q.id: q}` dict lookup). -/
def validateAnswers (questions : List SqlQuestion) :
    List AnswerInput → Except RejectReason Unit
  | [] => .ok ()
  | a :: rest =>
    if !pyTruthyNat a.questionId then .error .invalidQuestion
    else
      match questions.find? (fun q => q.id = a.questionId.getD 0) with
      | none => .error .invalidQuestion
      | some q =>
        if q.required && !hasPopulatedAnswer a then
          .error .requiredAnswerMissing
        else
          match validateAnswerType q a with
          | .error r => .error r
          | .ok _ => validateAnswers questions rest

/-- Embeds `ResponseRepository.create_response` as `submit_response` calls it, with
`respondent_email=respondent_email or "Anonymous"`. -/
def createResponse (surveyId : Nat) (email : Option String)
    (respondentId : Option Nat) (freshId : Nat) (now : Nat) : FormResponse :=
  ⟨freshId, surveyId, respondentId, some (pyOrStr email "Anonymous"), now⟩

/-- The answer-persisting loop of `submit_response`
(`response_repo.add_answer(response_id=response.id, **answer_data)`). -/
def addAnswerRows (responseId : Nat) : List AnswerInput → List AnswerRow
  | [] => []
  | a :: rest =>
    ⟨responseId, a.questionId.getD 0, a.textAnswer, a.numberAnswer,
      a.jsonAnswer, a.fileUrl⟩ :: addAnswerRows responseId rest

/-- Embeds `app/services/response_service.ResponseService.submit_response`:
`_get_and_validate_survey` (not-found, inactive, not-accepting, deadline,
cap — in that order), then the login check, then the duplicate check, then
per-answer validation, then persistence. -/
def submitResponse (forms : List Form) (db : Db) (now : Nat) (surveyId : Nat)
    (answers : List AnswerInput) (respondentEmail : Option String)
    (respondentId : Option Nat) (freshId : Nat) :
    Except RejectReason (FormResponse × Db) :=
  match getAndValidateSurvey forms db.responses now surveyId with
  | .error r => .error r
  | .ok survey =>
    if violatesLogin survey respondentId then .error .loginRequired
    else if violatesDuplicate survey db.responses respondentId
        respondentEmail then
      .error .duplicateResponse
    else
      match validateAnswers survey.questions answers with
      | .error r => .error r
      | .ok _ =>
        let resp := createResponse surveyId respondentEmail respondentId
          freshId now
        .ok (resp,
          ⟨db.responses ++ [resp],
            db.answerRows ++ addAnswerRows resp.id answers⟩)

/-- The eligibility failure reasons in the order the specification claims
they are checked. -/
def claimedOrder : List RejectReason :=
  [.surveyInactive, .notAcceptingResponses, .loginRequired, .deadlinePassed,
    .responseLimitReached, .duplicateResponse]

/-- The eligibility failure reasons in the order `submit_response` actually
checks them. -/
def codeOrder : List RejectReason :=
  [.surveyInactive, .notAcceptingResponses, .deadlinePassed,
    .responseLimitReached, .loginRequired, .duplicateResponse]

/-- Whether a given survey/submission state violates the condition guarded
by a given eligibility reason. -/
def violatesReason (f : Form) (store : List FormResponse) (now : Nat)
    (respondentId : Option Nat) (email : Option String) :
    RejectReason → Bool
  | .surveyInactive => violatesInactive f
  | .notAcceptingResponses => violatesNotAccepting f
  | .deadlinePassed => violatesDeadline f now
  | .responseLimitReached => violatesLimit f store
  | .loginRequired => violatesLogin f respondentId
  | .duplicateResponse => violatesDuplicate f store respondentId email
  | _ => false

/-- The statistics branch for scale questions in
`app/api/responses.get_form_statistics` (lines 174-180): keys `average`,
`min`, `max` are set only when at least one non-null `number_answer`
exists. -/
structure ScaleStats where
  totalAnswers : Nat
  average : Option ℚ
  minValue : Option Int
  maxValue : Option Int
deriving DecidableEq, Repr

/-- Embeds `scale_values = [a.number_answer for a in answers if a.number_answer is
not None]`; `if scale_values:` populate average/min/max. -/
def scaleStats (numberAnswers : List (Option Int)) : ScaleStats :=
  let vals := numberAnswers.filterMap id
  if vals.isEmpty then ⟨numberAnswers.length, none, none, none⟩
  else
    ⟨numberAnswers.length,
      some (((vals.sum : ℤ) : ℚ) / (vals.length : ℚ)),
      vals.min?, vals.max?⟩

/-- One iteration of the option-counting loop for choice-like questions in
`app/api/responses.get_form_statistics` (lines 162-172): skip falsy
`json_answer`s; a list increments each member's bucket, a scalar increments
its own bucket. -/
def optionStep (d : List (String × Nat)) (a : JsonValue) :
    List (String × Nat) :=
  if a.truthy then
    match a with
    | .arr l => l.foldl (fun d2 o => dictIncr d2 o 1) d
    | .str s => dictIncr d s 1
    | .null => d
  else d

/-- The full option-counting loop of `get_form_statistics`, starting from
the empty `option_counts` dict. -/
def optionCounts (answers : List JsonValue) : List (String × Nat) :=
  answers.foldl optionStep []

/-- Total number of occurrences of option `o` across a list of stored
choice answers, as the claim describes it: a multi-select answer
contributes one occurrence per selected copy, a scalar answer contributes
one when it equals `o`, and falsy answers contribute nothing. -/
def occurrencesOf (answers : List JsonValue) (o : String) : Nat :=
  (answers.map
    (fun a =>
      if a.truthy then
        match a with
        | .arr l => l.count o
        | .str s => if s = o then 1 else 0
        | .null => 0
      else 0)).sum

end App

/-! ## Concrete fixtures used by witnesses and counterexamples -/

namespace Fixtures

open SaasSurvey

/-- A survey (CSV variant) with a single rating question and no stored
responses. -/
def ratingOnlySurvey : Ddd.Survey :=
  ⟨"s1", "만족도 조사", "설문", 0, [⟨"q1", "s1", "평점", .rating, none⟩]⟩

/-- A survey (CSV variant) with no questions, target of submissions. -/
def emptySurvey : Ddd.Survey :=
  ⟨"s1", "만족도 조사", "설문", 0, []⟩

/-- An injective stand-in for the uuid4 stream: distinct indices give
strings of distinct lengths. -/
def uuidGen (n : Nat) : String :=
  String.mk (List.replicate n 'u')

/-- A form (SQL variant) that is active and accepting, requires login, and
whose deadline (5) is already past at time 10 — it violates both the
login-required and the deadline condition at once. -/
def loginAndDeadlineForm : App.Form :=
  ⟨1, 1, true, true, true, some 5, none, false, []⟩

/-- An inactive form (SQL variant) that also requires login. -/
def inactiveForm : App.Form :=
  ⟨1, 1, false, true, true, none, none, false, []⟩

/-- An open form (SQL variant) limited to one response per respondent, with
no questions. -/
def limitOneForm : App.Form :=
  ⟨1, 1, true, true, false, none, none, true, []⟩

end Fixtures

/-! ## Helper lemmas -/

namespace SaasSurvey

theorem dictGet_dictIncr (d : List (String × Nat)) (k o : String) (n : Nat) :
    dictGet (dictIncr d k n) o =
      if k = o then dictGet d o + n else dictGet d o := by
  induction d with
  | nil =>
    by_cases h : k = o <;> simp [dictIncr, dictGet, h]
  | cons kv rest ih =>
    obtain ⟨k0, v0⟩ := kv
    simp only [dictIncr]
    by_cases h1 : k0 = k
    · subst h1
      simp only [if_pos rfl]
      by_cases h2 : k0 = o <;> simp [dictGet, h2]
    · simp only [if_neg h1]
      by_cases h3 : k0 = o
      · subst h3
        have h2 : ¬k = k0 := fun h => h1 h.symm
        simp [dictGet, h2]
      · simp [dictGet, h3, ih]

theorem dictGet_foldl_incr (l : List String) (d : List (String × Nat))
    (o : String) :
    dictGet (l.foldl (fun d2 o2 => dictIncr d2 o2 1) d) o =
      dictGet d o + l.count o := by
  induction l generalizing d with
  | nil => simp
  | cons a l ih =>
    by_cases h : a = o <;>
      simp only [List.foldl_cons, ih, dictGet_dictIncr, h, List.count_cons,
        beq_iff_eq, reduceIte, if_true, if_false] <;>
      omega

theorem dictSet_of_not_mem {α : Type} (d : List (String × α)) (k : String)
    (v : α) (h : k ∉ d.map Prod.fst) : dictSet d k v = d ++ [(k, v)] := by
  induction d with
  | nil => simp [dictSet]
  | cons kv rest ih =>
    obtain ⟨k0, v0⟩ := kv
    simp only [List.map_cons, List.mem_cons] at h
    push_neg at h
    simp [dictSet, Ne.symm h.1, ih h.2]

end SaasSurvey

namespace App

open SaasSurvey

theorem dictGet_optionStep (d : List (String × Nat)) (a : JsonValue)
    (o : String) :
    dictGet (optionStep d a) o = dictGet d o + occurrencesOf [a] o := by
  cases a with
  | null => simp [optionStep, occurrencesOf, JsonValue.truthy]
  | str s =>
    by_cases hs : s = ""
    · simp [optionStep, occurrencesOf, JsonValue.truthy, hs]
    · by_cases ho : s = o
      · subst ho
        simp [optionStep, occurrencesOf, JsonValue.truthy, hs,
          dictGet_dictIncr]
      · simp [optionStep, occurrencesOf, JsonValue.truthy, hs, ho,
          dictGet_dictIncr]
  | arr l =>
    by_cases hl : l.isEmpty
    · simp at hl
      simp [optionStep, occurrencesOf, JsonValue.truthy, hl]
    · simp [optionStep, occurrencesOf, JsonValue.truthy, hl,
        dictGet_foldl_incr]

theorem dictGet_foldl_optionStep (answers : List JsonValue)
    (d : List (String × Nat)) (o : String) :
    dictGet (answers.foldl optionStep d) o =
      dictGet d o + occurrencesOf answers o := by
  induction answers generalizing d with
  | nil => simp [occurrencesOf]
  | cons a rest ih =>
    rw [List.foldl_cons, ih, dictGet_optionStep]
    simp only [occurrencesOf, List.map_cons, List.sum_cons, List.map_nil,
      List.sum_nil]
    omega

end App

namespace Ddd

open SaasSurvey

theorem filterMap_parse_eq (answers : List String) :
    answers.filterMap (fun a => if pyIsDigit a then some (pyInt a) else none) =
      (answers.filter pyIsDigit).map pyInt := by
  induction answers with
  | nil => rfl
  | cons a rest ih =>
    by_cases h : pyIsDigit a <;> simp [h, ih]

theorem foldl_resultsStep_state (qs : List Question)
    (acc : List (String × QuestionResult)) (db : SurveyDb) :
    (qs.foldl resultsStep (acc, db)).2 = db := by
  induction qs generalizing acc with
  | nil => rfl
  | cons q qs ih =>
    simpa [resultsStep, findByQuestionIdM] using ih _

theorem foldl_resultsStep_fst (qs : List Question)
    (acc : List (String × QuestionResult)) (db : SurveyDb) :
    (qs.foldl resultsStep (acc, db)).1 =
      qs.foldl
        (fun a q => dictSet a q.id (aggregateQuestion db.responses q)) acc := by
  induction qs generalizing acc with
  | nil => rfl
  | cons q qs ih =>
    simpa [resultsStep, findByQuestionIdM, aggregateQuestion,
      findByQuestionId] using ih _

theorem foldl_dictSet_eq_append (qs : List Question)
    (f : Question → QuestionResult) (acc : List (String × QuestionResult))
    (hnd : (qs.map Question.id).Nodup)
    (hacc : ∀ q ∈ qs, q.id ∉ acc.map Prod.fst) :
    qs.foldl (fun a q => dictSet a q.id (f q)) acc =
      acc ++ qs.map (fun q => (q.id, f q)) := by
  induction qs generalizing acc with
  | nil => simp
  | cons q qs ih =>
    simp only [List.map_cons, List.nodup_cons] at hnd
    have hacc2 : ∀ q2 ∈ qs, q2.id ∉ (acc ++ [(q.id, f q)]).map Prod.fst := by
      intro q2 hq2
      simp only [List.map_append, List.mem_append]
      push_neg
      refine ⟨hacc q2 (List.mem_cons_of_mem q hq2), ?_⟩
      intro hmem
      simp only [List.map_cons, List.map_nil, List.mem_singleton] at hmem
      exact hnd.1 (hmem ▸ List.mem_map_of_mem Question.id hq2)
    rw [List.foldl_cons,
      dictSet_of_not_mem acc q.id (f q) (hacc q (List.mem_cons_self q qs)),
      ih (acc ++ [(q.id, f q)]) hnd.2 hacc2]
    simp

theorem saveAnswers_length (uuids : Nat → String) (k now : Nat)
    (sid rid : String) (answers : List (String × String)) :
    (saveAnswers uuids k now sid rid answers).length = answers.length := by
  induction answers generalizing k with
  | nil => rfl
  | cons qa rest ih =>
    obtain ⟨qid, ans⟩ := qa
    simp [saveAnswers, ih]

theorem saveAnswers_map_qa (uuids : Nat → String) (k now : Nat)
    (sid rid : String) (answers : List (String × String)) :
    (saveAnswers uuids k now sid rid answers).map
        (fun r => (r.questionId, r.answer)) = answers := by
  induction answers generalizing k with
  | nil => rfl
  | cons qa rest ih =>
    obtain ⟨qid, ans⟩ := qa
    simp [saveAnswers, ih]

theorem saveAnswers_mem (uuids : Nat → String) (k now : Nat)
    (sid rid : String) (answers : List (String × String)) (r : Response)
    (hr : r ∈ saveAnswers uuids k now sid rid answers) :
    r.surveyId = sid ∧ r.respondentId = rid := by
  induction answers generalizing k with
  | nil => simp [saveAnswers] at hr
  | cons qa rest ih =>
    obtain ⟨qid, ans⟩ := qa
    simp only [saveAnswers, List.mem_cons] at hr
    rcases hr with hr | hr
    · subst hr
      exact ⟨rfl, rfl⟩
    · exact ih _ hr

theorem saveAnswers_map_id (uuids : Nat → String) (k now : Nat)
    (sid rid : String) (answers : List (String × String)) :
    (saveAnswers uuids k now sid rid answers).map Response.id =
      (List.range answers.length).map (fun i => uuids (k + i)) := by
  induction answers generalizing k with
  | nil => rfl
  | cons qa rest ih =>
    obtain ⟨qid, ans⟩ := qa
    simp only [saveAnswers, List.map_cons, List.length_cons,
      List.range_succ_eq_map, List.map_map, ih]
    refine congrArg (fun l => uuids (k + 0) :: l) ?_
    refine List.map_congr_left ?_
    intro i _
    simp only [Function.comp]
    exact congrArg uuids (by omega)

theorem saveAnswers_ids_nodup (uuids : Nat → String) (k now : Nat)
    (sid rid : String) (answers : List (String × String))
    (hinj : Function.Injective uuids) :
    ((saveAnswers uuids k now sid rid answers).map Response.id).Nodup := by
  rw [saveAnswers_map_id]
  refine List.Nodup.map ?_ (List.nodup_range _)
  intro a b hab
  have := hinj hab
  omega

end Ddd

namespace App

open SaasSurvey

theorem validateAnswerType_ne_dup (q : SqlQuestion) (a : AnswerInput) :
    validateAnswerType q a ≠ .error .duplicateResponse := by
  cases q.questionType <;>
    simp only [validateAnswerType] <;>
    (repeat' split) <;>
    simp

theorem validateAnswers_ne_dup (qs : List SqlQuestion)
    (answers : List AnswerInput) :
    validateAnswers qs answers ≠ .error .duplicateResponse := by
  induction answers with
  | nil => simp [validateAnswers]
  | cons a rest ih =>
    simp only [validateAnswers]
    split
    · simp
    · split
      · simp
      · split
        · simp
        · split
          · next heq =>
            intro hcontra
            injection hcontra with h2
            subst h2
            exact validateAnswerType_ne_dup _ _ heq
          · exact ih

theorem find?_form_id {forms : List Form} {surveyId : Nat} {f : Form}
    (hf : forms.find? (fun x => x.id = surveyId) = some f) :
    f.id = surveyId := by
  have := List.find?_some hf
  exact of_decide_eq_true this

theorem getAndValidateSurvey_of_checks (forms : List Form)
    (store : List FormResponse) (now surveyId : Nat) (f : Form)
    (hf : forms.find? (fun x => x.id = surveyId) = some f)
    (hI : violatesInactive f = false)
    (hA : violatesNotAccepting f = false)
    (hD : violatesDeadline f now = false)
    (hL : violatesLimit f store = false) :
    getAndValidateSurvey forms store now surveyId = .ok f := by
  simp [getAndValidateSurvey, hf, hI, hA, hD, hL]

theorem submitResponse_ok_inv (forms : List Form) (db : Db) (now : Nat)
    (surveyId : Nat) (answers : List AnswerInput) (email : Option String)
    (respondentId : Option Nat) (freshId : Nat) (f : Form)
    (resp : FormResponse) (db2 : Db)
    (hf : forms.find? (fun x => x.id = surveyId) = some f)
    (h : submitResponse forms db now surveyId answers email respondentId
      freshId = .ok (resp, db2)) :
    violatesInactive f = false ∧ violatesNotAccepting f = false ∧
      violatesDeadline f now = false ∧
      violatesLimit f db.responses = false ∧
      violatesLogin f respondentId = false ∧
      resp = createResponse surveyId email respondentId freshId now ∧
      db2.responses = db.responses ++ [resp] := by
  cases hI : violatesInactive f <;>
    cases hA : violatesNotAccepting f <;>
    cases hD : violatesDeadline f now <;>
    cases hL : violatesLimit f db.responses <;>
    cases hG : violatesLogin f respondentId <;>
    cases hDup : violatesDuplicate f db.responses respondentId email <;>
    cases hV : validateAnswers f.questions answers <;>
    simp_all [submitResponse, getAndValidateSurvey]
  obtain ⟨h1, h2⟩ := h
  subst h2
  simp [h1]

end App

namespace SaasSurvey

theorem pyRound2_zero : pyRound2 0 = 0 := by
  norm_num [pyRound2, roundHalfEven]

end SaasSurvey

namespace App

open SaasSurvey

theorem getAndValidateSurvey_ne_dup (forms : List Form)
    (store : List FormResponse) (now surveyId : Nat) :
    getAndValidateSurvey forms store now surveyId ≠
      .error .duplicateResponse := by
  unfold getAndValidateSurvey
  split
  · simp
  · (repeat' split) <;> simp

theorem getAndValidateSurvey_ne_login (forms : List Form)
    (store : List FormResponse) (now surveyId : Nat) :
    getAndValidateSurvey forms store now surveyId ≠
      .error .loginRequired := by
  unfold getAndValidateSurvey
  split
  · simp
  · (repeat' split) <;> simp

theorem hasUserResponded_append (store : List FormResponse) (surveyId : Nat)
    (rid : Option Nat) (email : Option String) (resp : FormResponse)
    (hid : resp.formId = surveyId) (hr : resp.respondentId = rid)
    (he : resp.respondentEmail = some (pyOrStr email "Anonymous"))
    (hident : (pyTruthyNat rid || pyTruthyStr email) = true) :
    hasUserResponded (store ++ [resp]) surveyId rid email = true := by
  cases hR : pyTruthyNat rid with
  | true =>
    simp only [hasUserResponded, hR, if_true]
    rw [List.filter_append]
    simp [hid, hr]
  | false =>
    have hE : pyTruthyStr email = true := by simpa [hR] using hident
    cases email with
    | none => simp [pyTruthyStr] at hE
    | some s =>
      have hs : s ≠ "" := by simpa [pyTruthyStr] using hE
      have he2 : resp.respondentEmail = some s := by
        rw [he]
        simp [pyOrStr, hs]
      simp only [hasUserResponded, hR, hE, if_false, if_true, Bool.false_eq_true]
      rw [List.filter_append]
      simp [hid, he2]

end App

/-! ## Claim theorems -/

open SaasSurvey

/-- C7: creating a choice-like Question with fewer than 2 options (in
particular exactly 1) fails with an error and the Question is never
constructed; with exactly 2 options creation succeeds; non-choice question
types are not subject to the options constraint. -/
theorem c7_choice_question_needs_two_options (id surveyId text : String)
    (hid : id ≠ "") (hsid : surveyId ≠ "")
    (htext : pyStripIsEmpty text = false) :
    (∀ o1, Ddd.Question.make id surveyId text .multipleChoice (some [o1]) =
      .error "객관식 질문은 최소 2개 이상의 선택지가 필요합니다") ∧
    (∀ o1 o2,
      Ddd.Question.make id surveyId text .multipleChoice (some [o1, o2]) =
        .ok ⟨id, surveyId, text, .multipleChoice, some [o1, o2]⟩) ∧
    (∀ (qt : Ddd.QuestionType) (options : Option (List String)),
      qt ≠ Ddd.QuestionType.multipleChoice →
      Ddd.Question.make id surveyId text qt options =
        .ok ⟨id, surveyId, text, qt, options⟩) := by
  have ht : text ≠ "" := by
    intro h
    subst h
    simp [pyStripIsEmpty] at htext
  refine ⟨?_, ?_, ?_⟩
  · intro o1
    simp [Ddd.Question.make, hid, hsid, htext, ht]
  · intro o1 o2
    simp [Ddd.Question.make, hid, hsid, htext, ht]
  · intro qt options hqt
    simp [Ddd.Question.make, hid, hsid, htext, ht, hqt]

/-- Witness for C7 at concrete inputs. -/
theorem c7_choice_question_needs_two_options_witness :
    (("q1" : String) ≠ "") ∧ (("s1" : String) ≠ "") ∧
    pyStripIsEmpty "질문" = false ∧
    Ddd.Question.make "q1" "s1" "질문" .multipleChoice (some ["하나"]) =
      .error "객관식 질문은 최소 2개 이상의 선택지가 필요합니다" ∧
    Ddd.Question.make "q1" "s1" "질문" .multipleChoice (some ["예", "아니오"]) =
      .ok ⟨"q1", "s1", "질문", .multipleChoice, some ["예", "아니오"]⟩ ∧
    Ddd.Question.make "q1" "s1" "질문" .rating none =
      .ok ⟨"q1", "s1", "질문", .rating, none⟩ :=
  have h := c7_choice_question_needs_two_options "q1" "s1" "질문"
    (by decide) (by decide) (by decide)
  ⟨by decide, by decide, by decide, h.1 "하나", h.2.1 "예" "아니오",
    h.2.2 .rating none (by decide)⟩

/-- C1: for every rating question, `count` is the number of answers whose
stored value parses as a (non-negative integer) number, `average` is the
arithmetic mean of the parsed values rounded to 2 decimal places, an
un-parseable answer is excluded rather than failing the aggregation, and
the concrete answer list [5,4,5,3,4,5,4,5,3,4] yields `count = 10`,
`average = 4.20`. -/
theorem c1_rating_count_and_average (questionText : String)
    (answers : List String) :
    ((Ddd.ratingResult questionText answers).count =
      (answers.filterMap
        (fun a => if pyIsDigit a then some (pyInt a) else none)).length) ∧
    (answers.filterMap
        (fun a => if pyIsDigit a then some (pyInt a) else none) ≠ [] →
      (Ddd.ratingResult questionText answers).average =
        some (pyRound2
          (((answers.filterMap
              (fun a => if pyIsDigit a then some (pyInt a) else none)).sum :
                ℚ) /
            ((answers.filterMap
              (fun a => if pyIsDigit a then some (pyInt a) else none)).length :
                ℚ)))) ∧
    (∀ a, pyIsDigit a = false →
      Ddd.ratingResult questionText (a :: answers) =
        Ddd.ratingResult questionText answers) ∧
    Ddd.ratingResult "만족도"
        ["5", "4", "5", "3", "4", "5", "4", "5", "3", "4"] =
      .rating "만족도" 10 (21 / 5) := by
  have hb := Ddd.filterMap_parse_eq answers
  refine ⟨?_, ?_, ?_, ?_⟩
  · rw [hb]
    simp [Ddd.ratingResult, Ddd.QuestionResult.count]
  · intro hne
    rw [hb] at hne
    rw [hb]
    have hlen : ((answers.filter pyIsDigit).map pyInt).isEmpty = false := by
      simpa [List.isEmpty_iff] using hne
    simp only [Ddd.ratingResult, Ddd.QuestionResult.average, hlen,
      Bool.false_eq_true, if_false, Option.some.injEq, Int.cast_natCast]
  · intro a ha
    simp [Ddd.ratingResult, List.filter_cons, ha]
  · show Ddd.QuestionResult.rating _ _ (pyRound2 ((42 : ℚ) / 10)) = _
    norm_num [pyRound2, roundHalfEven]
    decide

/-- Witness for C1 at a concrete input containing an un-parseable answer. -/
theorem c1_rating_count_and_average_witness :
    (["5", "x", "3"].filterMap
        (fun a => if pyIsDigit a then some (pyInt a) else none) ≠ []) ∧
    (Ddd.ratingResult "q" ["5", "x", "3"]).average =
      some (pyRound2
        (((["5", "x", "3"].filterMap
            (fun a => if pyIsDigit a then some (pyInt a) else none)).sum : ℚ) /
          ((["5", "x", "3"].filterMap
            (fun a => if pyIsDigit a then some (pyInt a) else none)).length :
              ℚ))) ∧
    pyIsDigit "x" = false ∧
    Ddd.ratingResult "q" ("x" :: ["5", "3"]) = Ddd.ratingResult "q" ["5", "3"] :=
  ⟨by decide, (c1_rating_count_and_average "q" ["5", "x", "3"]).2.1 (by decide),
    by decide,
    (c1_rating_count_and_average "q" ["5", "3"]).2.2.1 "x" (by decide)⟩

/-- C2 counterexample: in the CSV/DDD aggregator, a rating question with no
answers at all is reported with `count = 0` and an `average` key that is
present and equal to 0.0 — contradicting the claim that the average field
is absent/null and never reported as 0.0. -/
theorem c2_counterexample_average_zero_present :
    Ddd.getSurveyResults [Fixtures.ratingOnlySurvey] [] "s1" =
      .ok [("q1", .rating "평점" 0 0)] ∧
    (Ddd.QuestionResult.rating "평점" 0 0).average = some 0 := by
  constructor
  · simp [Ddd.getSurveyResults, Ddd.getSurveyResultsM, Ddd.findSurveyByIdM,
      Fixtures.ratingOnlySurvey, Ddd.resultsStep, Ddd.findByQuestionIdM,
      Ddd.questionResultOf, Ddd.ratingResult, dictSet, pyRound2_zero]
  · simp [Ddd.QuestionResult.average]

/-- C2 amended: for a rating/scale question with zero parseable numeric
answers, the CSV/DDD aggregator reports `count = 0` with the `average`
field present and equal to 0.0 (not absent), while the SQL statistics
endpoint omits the `average` field entirely. -/
theorem c2_zero_answers_average (questionText : String)
    (answers : List String) (numberAnswers : List (Option Int))
    (hd : answers.filter pyIsDigit = [])
    (hn : numberAnswers.filterMap id = []) :
    Ddd.ratingResult questionText answers = .rating questionText 0 0 ∧
    (App.scaleStats numberAnswers).average = none ∧
    (App.scaleStats numberAnswers).totalAnswers = numberAnswers.length := by
  refine ⟨?_, ?_, ?_⟩
  · simp [Ddd.ratingResult, hd, pyRound2_zero]
  · simp [App.scaleStats, hn]
  · simp [App.scaleStats, hn]

/-- Witness for the amended C2 at concrete inputs. -/
theorem c2_zero_answers_average_witness :
    (["좋음"].filter pyIsDigit = []) ∧
    (([none] : List (Option Int)).filterMap id = []) ∧
    Ddd.ratingResult "평점" ["좋음"] = .rating "평점" 0 0 ∧
    (App.scaleStats [none]).average = none :=
  have h := c2_zero_answers_average "평점" ["좋음"] [none]
    (by decide) (by decide)
  ⟨by decide, by decide, h.1, h.2.1⟩

/-- C3: for every choice-like question, the distribution maps each observed
option value to its number of occurrences, a multi-select (checkbox)
answer incrementing each selected option independently; the concrete
answer sequence of the claim yields the distribution
오전 ↦ 5, 오후 ↦ 3, 저녁 ↦ 2. -/
theorem c3_choice_distribution_counts :
    (∀ (answers : List App.JsonValue) (o : String),
      dictGet (App.optionCounts answers) o = App.occurrencesOf answers o) ∧
    App.optionCounts
        [.str "오전", .str "오전", .str "오후", .str "오전", .str "저녁",
          .str "오후", .str "오전", .str "저녁", .str "오후", .str "오전"] =
      [("오전", 5), ("오후", 3), ("저녁", 2)] ∧
    App.optionCounts [.arr ["오전", "오후"], .str "오전"] =
      [("오전", 2), ("오후", 1)] := by
  refine ⟨?_, by decide, by decide⟩
  intro answers o
  have h := App.dictGet_foldl_optionStep answers [] o
  simpa [App.optionCounts, dictGet] using h

/-- C6: the aggregation output has exactly one entry per Question of the
survey, in the survey's question order, and a question with zero answers
still appears, with `count = 0` and an empty distribution / answer list. -/
theorem c6_one_entry_per_question_in_order (surveys : List Ddd.Survey)
    (store : List Ddd.Response) (surveyId : String) (sv : Ddd.Survey)
    (hf : surveys.find? (fun s => s.id = surveyId) = some sv)
    (hnd : (sv.questions.map Ddd.Question.id).Nodup) :
    Ddd.getSurveyResults surveys store surveyId =
      .ok (sv.questions.map
        (fun q => (q.id, Ddd.aggregateQuestion store q))) ∧
    (Ddd.getSurveyResults surveys store surveyId).map
        (fun res => res.map Prod.fst) =
      .ok (sv.questions.map Ddd.Question.id) ∧
    (∀ q ∈ sv.questions, Ddd.findByQuestionId store q.id = [] →
      (Ddd.aggregateQuestion store q).count = 0 ∧
      (Ddd.aggregateQuestion store q).distribution?.getD [] = [] ∧
      (Ddd.aggregateQuestion store q).answers?.getD [] = []) := by
  have hmain : Ddd.getSurveyResults surveys store surveyId =
      .ok (sv.questions.map
        (fun q => (q.id, Ddd.aggregateQuestion store q))) := by
    simp only [Ddd.getSurveyResults, Ddd.getSurveyResultsM,
      Ddd.findSurveyByIdM, hf]
    rw [Ddd.foldl_resultsStep_fst]
    rw [Ddd.foldl_dictSet_eq_append _ _ _ hnd (by simp)]
    simp
  refine ⟨hmain, ?_, ?_⟩
  · rw [hmain]
    simp [Except.map]
  · intro q hq hempty
    have hagg : Ddd.aggregateQuestion store q =
        Ddd.questionResultOf q [] := by
      simp [Ddd.aggregateQuestion, hempty]
    rw [hagg]
    obtain ⟨qid, qsid, qtext, qt, qopts⟩ := q
    cases qt <;>
      simp [Ddd.questionResultOf, Ddd.ratingResult, Ddd.choiceResult,
        Ddd.textResult, Ddd.counter, Ddd.QuestionResult.count,
        Ddd.QuestionResult.distribution?, Ddd.QuestionResult.answers?]

/-- Witness for C6 at a concrete survey with one answered and one
unanswered question. -/
theorem c6_one_entry_per_question_in_order_witness :
    ([Fixtures.ratingOnlySurvey].find? (fun s => s.id = "s1") =
      some Fixtures.ratingOnlySurvey) ∧
    ((Fixtures.ratingOnlySurvey.questions.map Ddd.Question.id).Nodup) ∧
    Ddd.getSurveyResults [Fixtures.ratingOnlySurvey] [] "s1" =
      .ok (Fixtures.ratingOnlySurvey.questions.map
        (fun q => (q.id, Ddd.aggregateQuestion [] q))) :=
  ⟨by decide, by decide,
    (c6_one_entry_per_question_in_order [Fixtures.ratingOnlySurvey] [] "s1"
      Fixtures.ratingOnlySurvey (by decide) (by decide)).1⟩

/-- C8: aggregation is a pure, deterministic read: it leaves the stored
data unchanged, and running it a second time on the state it returns
produces the identical output. -/
theorem c8_aggregation_pure_idempotent (surveyId : String)
    (db : Ddd.SurveyDb) :
    (Ddd.getSurveyResultsM surveyId db).2 = db ∧
    (Ddd.getSurveyResultsM surveyId
        ((Ddd.getSurveyResultsM surveyId db).2)).1 =
      (Ddd.getSurveyResultsM surveyId db).1 := by
  have hstate : (Ddd.getSurveyResultsM surveyId db).2 = db := by
    unfold Ddd.getSurveyResultsM Ddd.findSurveyByIdM
    cases h : db.surveys.find? (fun s => s.id = surveyId) <;>
      simp [h, Ddd.foldl_resultsStep_state]
  exact ⟨hstate, by rw [hstate]⟩

/-- C4 counterexample: a survey that is active and accepting but both
requires login (with no respondent identity supplied) and has a passed
deadline violates the claimed third check (LoginRequired) first in the
claimed order, yet the code rejects it with DeadlinePassed — the deadline
and cap checks run inside `_get_and_validate_survey`, before the login
check in `submit_response`. -/
theorem c4_counterexample_login_after_deadline :
    App.violatesReason Fixtures.loginAndDeadlineForm [] 10 none none
        .loginRequired = true ∧
    App.violatesReason Fixtures.loginAndDeadlineForm [] 10 none none
        .deadlinePassed = true ∧
    (App.claimedOrder.filter
        (App.violatesReason Fixtures.loginAndDeadlineForm [] 10 none
          none)).head? = some .loginRequired ∧
    App.submitResponse [Fixtures.loginAndDeadlineForm] ⟨[], []⟩ 10 1 [] none
        none 1 = .error .deadlinePassed :=
  ⟨rfl, rfl, rfl, rfl⟩

/-- C4 amended: the submission eligibility checks short-circuit in the
order SurveyInactive, NotAcceptingResponses, DeadlinePassed,
ResponseLimitReached, LoginRequired, DuplicateResponse (login is checked
after deadline and cap, not before): whenever at least one condition is
violated, submission fails with the reason of the earliest violated check
in that order. -/
theorem c4_first_violated_check_in_code_order (forms : List App.Form)
    (db : App.Db) (now surveyId freshId : Nat)
    (answers : List App.AnswerInput) (email : Option String)
    (rid : Option Nat) (f : App.Form) (r : App.RejectReason)
    (hf : forms.find? (fun x => x.id = surveyId) = some f)
    (hr : (App.codeOrder.filter
        (App.violatesReason f db.responses now rid email)).head? = some r) :
    App.submitResponse forms db now surveyId answers email rid freshId =
      .error r := by
  cases hI : App.violatesInactive f <;>
    cases hA : App.violatesNotAccepting f <;>
    cases hD : App.violatesDeadline f now <;>
    cases hL : App.violatesLimit f db.responses <;>
    cases hG : App.violatesLogin f rid <;>
    cases hDup : App.violatesDuplicate f db.responses rid email <;>
    simp_all [App.codeOrder, App.violatesReason, App.submitResponse,
      App.getAndValidateSurvey]

/-- Witness for the amended C4 on an inactive survey. -/
theorem c4_first_violated_check_in_code_order_witness :
    ([Fixtures.inactiveForm].find? (fun x => x.id = 1) =
      some Fixtures.inactiveForm) ∧
    ((App.codeOrder.filter
        (App.violatesReason Fixtures.inactiveForm [] 0 none none)).head? =
      some .surveyInactive) ∧
    App.submitResponse [Fixtures.inactiveForm] ⟨[], []⟩ 0 1 [] none none 1 =
      .error .surveyInactive :=
  ⟨rfl, rfl,
    c4_first_violated_check_in_code_order [Fixtures.inactiveForm] ⟨[], []⟩ 0
      1 1 [] none none Fixtures.inactiveForm .surveyInactive rfl rfl⟩

/-- C9: with neither a (truthy) authenticated respondent id nor a (truthy)
respondent email, `has_user_responded` returns False, and consequently a
fully anonymous submission is never rejected with DuplicateResponse, no
matter what is already stored. -/
theorem c9_anonymous_never_duplicate (rid : Option Nat)
    (email : Option String) (hrid : pyTruthyNat rid = false)
    (hemail : pyTruthyStr email = false) :
    (∀ (store : List App.FormResponse) (surveyId : Nat),
      App.hasUserResponded store surveyId rid email = false) ∧
    (∀ (forms : List App.Form) (db : App.Db) (now surveyId freshId : Nat)
        (answers : List App.AnswerInput),
      App.submitResponse forms db now surveyId answers email rid freshId ≠
        .error .duplicateResponse) := by
  have hnever : ∀ (store : List App.FormResponse) (surveyId : Nat),
      App.hasUserResponded store surveyId rid email = false := by
    intro store surveyId
    simp [App.hasUserResponded, hrid, hemail]
  refine ⟨hnever, ?_⟩
  intro forms db now surveyId freshId answers
  simp only [App.submitResponse]
  split
  · next r heq =>
    intro hc
    injection hc with h2
    subst h2
    exact App.getAndValidateSurvey_ne_dup _ _ _ _ heq
  · next survey heq =>
    split
    · simp
    · have hdup : App.violatesDuplicate survey db.responses rid email =
          false := by
        simp [App.violatesDuplicate, hnever]
      simp only [hdup, Bool.false_eq_true, if_false]
      split
      · next r2 heq2 =>
        intro hc
        injection hc with h2
        subst h2
        exact App.validateAnswers_ne_dup _ _ heq2
      · simp

/-- Witness for C9: an anonymous resubmission against a
limit-one-response survey that already holds an anonymous response. -/
theorem c9_anonymous_never_duplicate_witness :
    pyTruthyNat none = false ∧ pyTruthyStr none = false ∧
    App.hasUserResponded [⟨1, 1, none, some "Anonymous", 0⟩] 1 none none =
      false ∧
    App.submitResponse [Fixtures.limitOneForm]
        ⟨[⟨1, 1, none, some "Anonymous", 0⟩], []⟩ 0 1 [] none none 2 ≠
      .error .duplicateResponse :=
  have h := c9_anonymous_never_duplicate none none rfl rfl
  ⟨rfl, rfl, h.1 [⟨1, 1, none, some "Anonymous", 0⟩] 1,
    h.2 [Fixtures.limitOneForm] ⟨[⟨1, 1, none, some "Anonymous", 0⟩], []⟩ 0
      1 2 []⟩

/-- C5: on a survey with `limit_one_response` true, once a submission from
a given respondent identity (respondent id if truthy, else respondent
email) has been stored, a second submission from the same identity fails
with DuplicateResponse — whatever answers either submission carries —
provided the second submission still passes the earlier deadline and cap
checks, which the code evaluates first. -/
theorem c5_second_submission_is_duplicate (forms : List App.Form)
    (db : App.Db) (now1 now2 surveyId fresh1 fresh2 : Nat)
    (ans1 ans2 : List App.AnswerInput) (email : Option String)
    (rid : Option Nat) (f : App.Form) (resp : App.FormResponse)
    (db2 : App.Db)
    (hf : forms.find? (fun x => x.id = surveyId) = some f)
    (hlim : f.limitOneResponse = true)
    (hident : (pyTruthyNat rid || pyTruthyStr email) = true)
    (h1 : App.submitResponse forms db now1 surveyId ans1 email rid fresh1 =
      .ok (resp, db2))
    (hdl : App.violatesDeadline f now2 = false)
    (hmx : App.violatesLimit f db2.responses = false) :
    App.submitResponse forms db2 now2 surveyId ans2 email rid fresh2 =
      .error .duplicateResponse := by
  obtain ⟨hI, hA, _, _, hG, hresp, hdb2⟩ :=
    App.submitResponse_ok_inv forms db now1 surveyId ans1 email rid fresh1 f
      resp db2 hf h1
  have hfid : f.id = surveyId := App.find?_form_id hf
  have hUR : App.hasUserResponded db2.responses f.id rid email = true := by
    rw [hdb2]
    refine App.hasUserResponded_append db.responses f.id rid email resp ?_
      ?_ ?_ hident
    · rw [hresp]
      simp [App.createResponse, hfid]
    · rw [hresp]
      rfl
    · rw [hresp]
      rfl
  have hdup : App.violatesDuplicate f db2.responses rid email = true := by
    simp [App.violatesDuplicate, hlim, hUR]
  have hgv : App.getAndValidateSurvey forms db2.responses now2 surveyId =
      .ok f :=
    App.getAndValidateSurvey_of_checks forms db2.responses now2 surveyId f
      hf hI hA hdl hmx
  simp [App.submitResponse, hgv, hG, hdup]

/-- Witness for C5: an email-identified respondent submits twice to a
limit-one-response survey. -/
theorem c5_second_submission_is_duplicate_witness :
    ([Fixtures.limitOneForm].find? (fun x => x.id = 1) =
      some Fixtures.limitOneForm) ∧
    Fixtures.limitOneForm.limitOneResponse = true ∧
    ((pyTruthyNat none || pyTruthyStr (some "a@b.c")) = true) ∧
    App.submitResponse [Fixtures.limitOneForm] ⟨[], []⟩ 0 1 []
        (some "a@b.c") none 1 =
      .ok (⟨1, 1, none, some "a@b.c", 0⟩,
        ⟨[⟨1, 1, none, some "a@b.c", 0⟩], []⟩) ∧
    App.violatesDeadline Fixtures.limitOneForm 3 = false ∧
    App.violatesLimit Fixtures.limitOneForm
        [⟨1, 1, none, some "a@b.c", 0⟩] = false ∧
    App.submitResponse [Fixtures.limitOneForm]
        ⟨[⟨1, 1, none, some "a@b.c", 0⟩], []⟩ 3 1 [] (some "a@b.c") none 2 =
      .error .duplicateResponse :=
  ⟨rfl, rfl, rfl, rfl, rfl, rfl,
    c5_second_submission_is_duplicate [Fixtures.limitOneForm] ⟨[], []⟩ 0 3 1
      1 2 [] [] (some "a@b.c") none Fixtures.limitOneForm
      ⟨1, 1, none, some "a@b.c", 0⟩ ⟨[⟨1, 1, none, some "a@b.c", 0⟩], []⟩
      rfl rfl rfl rfl rfl rfl⟩

/-- C10: in the CSV/DDD variant, submitting a response whose answers dict
has N entries persists exactly N separate Response records — one per
(question id, answer) pair, each with a fresh unique id, all sharing the
survey id and respondent id — so the survey's stored response count grows
by the number of answers, not by one per respondent. -/
theorem c10_one_record_per_answer (surveys : List Ddd.Survey)
    (store : List Ddd.Response) (uuids : Nat → String) (k now : Nat)
    (surveyId respondentId : String) (answers : List (String × String))
    (sv : Ddd.Survey)
    (hf : surveys.find? (fun s => s.id = surveyId) = some sv)
    (hinj : Function.Injective uuids) :
    Ddd.submitResponse surveys store uuids k now surveyId respondentId
        answers =
      .ok (store ++
        Ddd.saveAnswers uuids k now surveyId respondentId answers) ∧
    (Ddd.saveAnswers uuids k now surveyId respondentId answers).length =
      answers.length ∧
    (Ddd.saveAnswers uuids k now surveyId respondentId answers).map
        (fun r => (r.questionId, r.answer)) = answers ∧
    (∀ r ∈ Ddd.saveAnswers uuids k now surveyId respondentId answers,
      r.surveyId = surveyId ∧ r.respondentId = respondentId) ∧
    ((Ddd.saveAnswers uuids k now surveyId respondentId answers).map
        Ddd.Response.id).Nodup ∧
    (Ddd.findBySurveyId
        (store ++ Ddd.saveAnswers uuids k now surveyId respondentId answers)
        surveyId).length =
      (Ddd.findBySurveyId store surveyId).length + answers.length := by
  refine ⟨?_, Ddd.saveAnswers_length uuids k now surveyId respondentId
      answers,
    Ddd.saveAnswers_map_qa uuids k now surveyId respondentId answers,
    fun r hr => Ddd.saveAnswers_mem uuids k now surveyId respondentId
      answers r hr,
    Ddd.saveAnswers_ids_nodup uuids k now surveyId respondentId answers
      hinj, ?_⟩
  · simp [Ddd.submitResponse, hf]
  · have hall : (Ddd.saveAnswers uuids k now surveyId respondentId
        answers).filter (fun r => r.surveyId = surveyId) =
        Ddd.saveAnswers uuids k now surveyId respondentId answers := by
      refine List.filter_eq_self.mpr ?_
      intro r hr
      simp [(Ddd.saveAnswers_mem uuids k now surveyId respondentId answers
        r hr).1]
    rw [Ddd.findBySurveyId, List.filter_append, hall]
    simp [Ddd.findBySurveyId,
      Ddd.saveAnswers_length uuids k now surveyId respondentId answers]

/-- Witness for C10: a two-answer submission persists two records. -/
theorem c10_one_record_per_answer_witness :
    ([Fixtures.emptySurvey].find? (fun s => s.id = "s1") =
      some Fixtures.emptySurvey) ∧
    Function.Injective Fixtures.uuidGen ∧
    Ddd.submitResponse [Fixtures.emptySurvey] [] Fixtures.uuidGen 0 7 "s1"
        "민수" [("q1", "5"), ("q2", "좋아요")] =
      .ok (([] : List Ddd.Response) ++
        Ddd.saveAnswers Fixtures.uuidGen 0 7 "s1" "민수"
          [("q1", "5"), ("q2", "좋아요")]) ∧
    (Ddd.saveAnswers Fixtures.uuidGen 0 7 "s1" "민수"
        [("q1", "5"), ("q2", "좋아요")]).length = 2 :=
  have hinj : Function.Injective Fixtures.uuidGen := by
    intro a b h
    have h2 := congrArg (fun s => s.data.length) h
    simpa [Fixtures.uuidGen] using h2
  have h := c10_one_record_per_answer [Fixtures.emptySurvey] []
    Fixtures.uuidGen 0 7 "s1" "민수" [("q1", "5"), ("q2", "좋아요")]
    Fixtures.emptySurvey rfl hinj
  ⟨rfl, hinj, h.1, h.2.1⟩
